import Mathlib

set_option maxRecDepth 16384

/-!
Verification of the WhatsApp hotel bot (files `app.py`, `ciao_booking_client.py`,
`nlp.py`, `state.py`, `utils.py`) against its natural-language specification.

The development is a shallow embedding: the Python functions that the claims
talk about are translated into executable Lean definitions, keeping the
source's names, branch structure and string literals.  Two layers appear, as
in the source:

* the *service/client layer* (`ciao_booking_client.py`): raw reservation
  payloads whose enum fields may still be numeric codes (`EnumVal`), the
  normalisation `_normalize_reservation`, and `get_booking_context` with an
  explicit trace of the service calls it performs;
* the *app/policy layer* (`app.py`): normalised reservations with string
  enum fields (the spec's invariant is that raw numeric codes never reach
  the policy layer), the disclosure predicates, and `build_answer`.

Dates (Python `datetime.date`) are encoded as `Nat` in the form
`y*10000 + m*100 + d`; on valid calendar dates this encoding is strictly
monotone with respect to Python's `date` ordering, so `≤`/`<`/`=` on the
encoding coincide with the comparisons performed by the source.  "Today"
(`date.today()`) is an ambient input of the program and is passed as an
explicit parameter.  The OpenAI fallback (`call_llm`) is external I/O and is
abstracted as a function parameter; no claim concerns its output.
-/

/-! ## Generic string helpers (Python `in`, `or`, truthiness) -/

/-- Python's substring test `needle in hay` on explicit character lists. -/
def listIncl (needle : List Char) : List Char → Bool
  | [] => needle.isEmpty
  | c :: rest => needle.isPrefixOf (c :: rest) || listIncl needle rest

/-- Python `needle in hay` for strings (empty needle matches everything). -/
def strIn (needle hay : String) : Bool :=
  listIncl needle.data hay.data

/-- `str.lower()` (ASCII, as Lean's `Char.toLower`), via the character
list so that proofs can evaluate it by kernel reduction. -/
def strLower (s : String) : String :=
  String.mk (s.data.map Char.toLower)

/-- `str.upper()` (ASCII), via the character list. -/
def strUpper (s : String) : String :=
  String.mk (s.data.map Char.toUpper)

/-- `str.strip()`, via the character list. -/
def strTrim (s : String) : String :=
  String.mk (((s.data.dropWhile Char.isWhitespace).reverse.dropWhile Char.isWhitespace).reverse)

/-- `s[:n]`, via the character list. -/
def strTake (s : String) (n : Nat) : String :=
  String.mk (s.data.take n)

/-- Python string-`or`: `a or b` where a false-y string is `""`/`None`. -/
def orElseStr (a b : Option String) : Option String :=
  match a with
  | some s => if s = "" then b else some s
  | none => b

/-- Python truthiness of an optional string (`None` and `""` are false-y). -/
def isTruthy (o : Option String) : Bool :=
  match o with
  | some s => s ≠ ""
  | none => false

/-- `truthyStr o` is `o` if truthy, otherwise `none` (Python `x or None`). -/
def truthyStr (o : Option String) : Option String :=
  match o with
  | some s => if s = "" then none else some s
  | none => none

/-- Python `(x or "").upper()` for an optional string field. -/
def strUpperOr (o : Option String) : String :=
  strUpper (o.getD "")

/-- Python `x or '—'` used when rendering the transfer summary. -/
def orDash (o : Option String) : String :=
  match o with
  | some s => if s = "" then "—" else s
  | none => "—"

/-- Association-list lookup with string keys (Python `dict.get`). -/
def lookupStr : List (String × String) → String → Option String
  | [], _ => none
  | (k, v) :: rest, key => if k = key then some v else lookupStr rest key

/-- Association-list lookup with integer keys (Python `dict.get`). -/
def lookupInt : List (Int × String) → Int → Option String
  | [], _ => none
  | (k, v) :: rest, key => if k = key then some v else lookupInt rest key

/-- Python `"\n".join parts`. -/
def joinLines : List String → String
  | [] => ""
  | [x] => x
  | x :: y :: rest => x ++ "\n" ++ joinLines (y :: rest)

/-- First whitespace-separated word, Python `s.split()[0]` (used on a
stripped, non-empty name). -/
def firstWord (s : String) : String :=
  String.mk ((s.data.dropWhile Char.isWhitespace).takeWhile (fun c => ¬ c.isWhitespace))

/-- Word characters of Python's regex `\w` / `\b`, restricted to ASCII
(the texts the patterns are applied to are digits, ASCII letters, spaces
and punctuation). -/
def isWordChar (c : Char) : Bool :=
  c.isAlphanum || c = '_'

/-- Python regex word boundary on the right of a match: end of string or a
non-word character. -/
def boundaryAfter : List Char → Bool
  | [] => true
  | c :: _ => !isWordChar c

/-- Boundary on the left: start of string or previous char not a word char. -/
def prevNonWord : Option Char → Bool
  | none => true
  | some p => !isWordChar p

/-! ## Dates: `_parse_ymd` (app.py lines 97-103) -/

def isLeap (y : Nat) : Bool :=
  y % 4 = 0 && (y % 100 ≠ 0 || y % 400 = 0)

def daysInMonth (y m : Nat) : Nat :=
  if m = 2 then (if isLeap y then 29 else 28)
  else if m = 4 || m = 6 || m = 9 || m = 11 then 30
  else 31

def digitVal (c : Char) : Nat := c.toNat - '0'.toNat

/-- `date.fromisoformat` on a 10-character `YYYY-MM-DD` string; result is the
encoding `y*10000 + m*100 + d`.  Any malformed or non-calendar input yields
`none` (the Python call raises and `_parse_ymd` catches). -/
def parseIso (s : String) : Option Nat :=
  match s.data with
  | [y1, y2, y3, y4, h1, m1, m2, h2, d1, d2] =>
    if y1.isDigit && y2.isDigit && y3.isDigit && y4.isDigit &&
       h1 = '-' && m1.isDigit && m2.isDigit && h2 = '-' &&
       d1.isDigit && d2.isDigit then
      let y := digitVal y1 * 1000 + digitVal y2 * 100 + digitVal y3 * 10 + digitVal y4
      let m := digitVal m1 * 10 + digitVal m2
      let d := digitVal d1 * 10 + digitVal d2
      if 1 ≤ y && 1 ≤ m && m ≤ 12 && 1 ≤ d && d ≤ daysInMonth y m then
        some (y * 10000 + m * 100 + d)
      else none
    else none
  | _ => none

/-- `_parse_ymd` (app.py): `None`/empty gives `None`, otherwise parse the
first 10 characters as an ISO date. -/
def parse_ymd (o : Option String) : Option Nat :=
  match o with
  | none => none
  | some d => if d = "" then none else parseIso (strTake d 10)

/-! ## App-layer data model -/

/-- A client record as used by `app.py` (`client.get("name")`,
`client.get("id")`). -/
structure Client where
  id : Option String
  name : Option String
deriving Repr, DecidableEq

/-- A normalised reservation as consumed by `app.py`: enum fields are the
string labels produced by `_normalize_reservation` (the spec's invariant is
that raw numeric codes do not reach this layer).  `property` stands for the
nested `reservation["property"]["name"]`. -/
structure Reservation where
  id : Option String
  status : Option String
  guest_status : Option String
  is_checkin_completed : Option String
  start_date : Option String
  end_date : Option String
  property : Option String
  property_name : Option String
deriving Repr, DecidableEq

/-- The `booking_ctx` dict produced by `app.get_booking_context`:
`client`/`reservation` plus the `_lookup` bookkeeping fields. -/
structure BookingContext where
  client : Option Client
  reservation : Option Reservation
  rid_tried : Option String
  rid_found : Bool
deriving Repr, DecidableEq

/-- Python `(res.get("is_checkin_completed") or "").upper()` where `res` is
the context's reservation (or `{}` when absent). -/
def ctxChk (ctx : BookingContext) : String :=
  strUpperOr (ctx.reservation.bind Reservation.is_checkin_completed)

/-- Python `(res.get("status") or "").upper()`. -/
def ctxStatus (ctx : BookingContext) : String :=
  strUpperOr (ctx.reservation.bind Reservation.status)

/-! ## Disclosure policy (app.py lines 106-131) -/

/-- `should_offer_checkin_assets_auto` (app.py lines 106-124), with
`date.today()` passed as the encoded parameter `today`. -/
def should_offer_checkin_assets_auto (today : Nat) (ctx : BookingContext) : Bool :=
  match ctx.reservation with
  | none => false
  | some res =>
    if strUpperOr res.status ≠ "CONFIRMED" then false
    else if ¬ (strUpperOr res.is_checkin_completed = "COMPLETED" ∨
               strUpperOr res.is_checkin_completed = "VERIFIED") then false
    else
      match parse_ymd res.start_date with
      | none => false
      | some dStart =>
        if today = dStart then true
        else
          match parse_ymd res.end_date with
          | none => false
          | some dEnd => if dStart ≤ today ∧ today < dEnd then true else false

/-- `explicit_access_request_blocked` (app.py lines 126-131). -/
def explicit_access_request_blocked (ctx : BookingContext) : Bool :=
  match ctx.reservation with
  | none => false
  | some res =>
    let chk := strUpperOr res.is_checkin_completed
    chk = "TO_DO" || chk = "0" || chk = ""

/-! ## Knowledge base (app.py lines 39-54; `knowledge_base.json` is absent
from the repository, so the code falls back to `DEFAULT_KB`) -/

def KB_videos : List (String × String) :=
  [("relais dell’ussero", "https://youtube.com/shorts/XnBcl2T-ewM?feature=share"),
   ("casa monic", "https://youtube.com/shorts/YHX-7uT3itQ?feature=share"),
   ("belle vue", "https://youtube.com/shorts/1iqknGhIFEc?feature=share"),
   ("casa di gina", "https://youtube.com/shorts/Wi-mevoKB3w?feature=share"),
   ("villino di monic", "")]

def KB_corrente : List (String × String) :=
  [("casa monic", "https://youtube.com/shorts/UIozKt4ZrCk?feature=share")]

/-- `KB["transfer_tariffe"]["aeroporto_citta"]`. -/
def tariffa_aeroporto_citta : Nat := 50

/-- `KB["transfer_tariffe"]["citta_citta"]`. -/
def tariffa_citta_citta : Nat := 40

/-! ## Property helpers (app.py lines 134-166) -/

def ALIASES : List (String × List String) :=
  [("casa monic", ["casa monic", "monic", "casa di monic", "casa di monic", "villino di monic?"]),
   ("relais dell’ussero", ["relais", "ussero", "relais dell'ussero", "relais dell’ussero"]),
   ("belle vue", ["belle vue", "bellevue"]),
   ("casa di gina", ["casa di gina", "gina"]),
   ("villino di monic", ["villino di monic", "villino monic", "villino"])]

def normalize_property_key (name : String) : String :=
  strLower (strTrim name)

/-- `extract_property_from_text` (app.py lines 144-153): first alias found in
the lowered text wins, then the KB video keys. -/
def extract_property_from_text (text : String) : Option String :=
  let t := strLower text
  let fromAliases := ALIASES.findSome? fun kv =>
    if kv.2.any (fun a => strIn a t) then some kv.1 else none
  match fromAliases with
  | some canonical => some canonical
  | none => (KB_videos.findSome? fun kv => if strIn kv.1 t then some kv.1 else none)

/-- `property_name_from_ctx` (app.py lines 155-158). -/
def property_name_from_ctx (ctx : BookingContext) : Option String :=
  match ctx.reservation with
  | none => none
  | some res =>
    match orElseStr res.property res.property_name with
    | none => none
    | some p => if p = "" then none else some (strTrim p)

/-- `kb_video_for_property` (app.py lines 160-162); the final `or None`
turns the empty-string entry into `None`. -/
def kb_video_for_property (name : String) : Option String :=
  match lookupStr KB_videos (normalize_property_key name) with
  | some v => if v = "" then none else some v
  | none => none

/-- `kb_power_video_for_property` (app.py lines 164-166). -/
def kb_power_video_for_property (name : String) : Option String :=
  match lookupStr KB_corrente (normalize_property_key name) with
  | some v => if v = "" then none else some v
  | none => none

/-! ## Lightweight intents (app.py lines 168-198) -/

def VIDEO_KEYWORDS : List String :=
  ["video", "accesso", "codice", "check-in", "checkin", "entrare", "self check"]

def POWER_KEYWORDS : List String := ["corrente", "luce", "elettric", "power"]

def TRANSFER_KEYWORDS : List String := ["transfer", "taxi", "trasfer", "trasporto"]

def PARKING_KEYWORDS : List String := ["parcheggio", "park", "auto", "sosta"]

def YES_WORDS : List String := ["si", "sì", "ok", "va bene", "certo", "confermo", "yes"]

def NO_WORDS : List String := ["no", "non", "negativo"]

def wants_video (text : String) : Bool :=
  VIDEO_KEYWORDS.any (fun k => strIn k (strLower text))

def wants_power (text : String) : Bool :=
  POWER_KEYWORDS.any (fun k => strIn k (strLower text))

def wants_transfer (text : String) : Bool :=
  TRANSFER_KEYWORDS.any (fun k => strIn k (strLower text))

def wants_parking (text : String) : Bool :=
  PARKING_KEYWORDS.any (fun k => strIn k (strLower text))

def is_yes (text : String) : Bool :=
  let t := strTrim (strLower text)
  YES_WORDS.any (fun w => w.data.isPrefixOf t.data || t = w)

def is_no (text : String) : Bool :=
  let t := strTrim (strLower text)
  NO_WORDS.any (fun w => t = w)

/-- Greeting detector inlined at app.py line 246. -/
def isGreetingText (text : String) : Bool :=
  ["ciao", "buongiorno", "salve", "hey"].any (fun g => strIn g (strLower text))

/-- `((booking_ctx.get("client") or {}).get("name") or "").strip()`. -/
def clientNameOf (ctx : BookingContext) : String :=
  strTrim ((ctx.client.bind Client.name).getD "")

/-! ## Transfer-branch regex extraction (app.py lines 360-371)

The three `re.search` patterns are embedded as explicit scanners over the
character list, reproducing leftmost search, the greedy `\d{1,2}` with its
one-step backtracking, and `\b` boundaries. -/

/-- Greedy `(\d{1,2})\b` at the current position: prefer two digits, fall
back to one, subject to the trailing word boundary. -/
def digits12Bounded (cs : List Char) : Option String :=
  match cs with
  | [] => none
  | c1 :: rest =>
    if !c1.isDigit then none
    else
      match rest with
      | [] => some (String.mk [c1])
      | c2 :: rest2 =>
        if c2.isDigit then
          if boundaryAfter rest2 then some (String.mk [c1, c2]) else none
        else if boundaryAfter rest then some (String.mk [c1]) else none

/-- `re.search(r"\bsiamo in (\d{1,2})\b", t)`, returning group 1. -/
def scanSiamoIn (prev : Option Char) : List Char → Option String
  | [] => none
  | c :: rest =>
    (if prevNonWord prev && "siamo in ".data.isPrefixOf (c :: rest) then
       digits12Bounded ((c :: rest).drop 9)
     else none).orElse fun _ => scanSiamoIn (some c) rest

/-- `(persone|adulti|ospiti)\b` at the current position. -/
def peopleNoun (cs : List Char) : Bool :=
  ("persone".data.isPrefixOf cs && boundaryAfter (cs.drop 7)) ||
  ("adulti".data.isPrefixOf cs && boundaryAfter (cs.drop 6)) ||
  ("ospiti".data.isPrefixOf cs && boundaryAfter (cs.drop 6))

/-- `(\d{1,2}) (persone|adulti|ospiti)\b` at the current position (leading
`\b` is the caller's concern), returning group 1. -/
def peopleAt (cs : List Char) : Option String :=
  match cs with
  | [] => none
  | c1 :: rest =>
    if !c1.isDigit then none
    else
      let try2 :=
        match rest with
        | c2 :: ' ' :: rest2 =>
          if c2.isDigit && peopleNoun rest2 then some (String.mk [c1, c2]) else none
        | _ => none
      match try2 with
      | some s => some s
      | none =>
        match rest with
        | ' ' :: rest1 => if peopleNoun rest1 then some (String.mk [c1]) else none
        | _ => none

/-- `re.search(r"\b(\d{1,2}) (persone|adulti|ospiti)\b", t)`, group 1. -/
def scanPeople (prev : Option Char) : List Char → Option String
  | [] => none
  | c :: rest =>
    (if prevNonWord prev then peopleAt (c :: rest) else none).orElse
      fun _ => scanPeople (some c) rest

/-- `(\d{1,2})[:\.](\d{2})\b` at the current position, returning both
groups. -/
def timeAt (cs : List Char) : Option (String × String) :=
  let sepMM : List Char → Option String := fun l =>
    match l with
    | sep :: a :: b :: rest3 =>
      if (sep = ':' || sep = '.') && a.isDigit && b.isDigit && boundaryAfter rest3 then
        some (String.mk [a, b])
      else none
    | _ => none
  match cs with
  | [] => none
  | c1 :: rest =>
    if !c1.isDigit then none
    else
      let try2 :=
        match rest with
        | c2 :: rest2 =>
          if c2.isDigit then (sepMM rest2).map fun mm => (String.mk [c1, c2], mm)
          else none
        | [] => none
      match try2 with
      | some x => some x
      | none => (sepMM rest).map fun mm => (String.mk [c1], mm)

/-- `re.search(r"\b(\d{1,2})[:\.](\d{2})\b", text)`. -/
def scanTime (prev : Option Char) : List Char → Option (String × String)
  | [] => none
  | c :: rest =>
    (if prevNonWord prev then timeAt (c :: rest) else none).orElse
      fun _ => scanTime (some c) rest

/-! ## build_answer (app.py lines 238-429) -/

/-- The LLM fallback (`call_llm` on the prompt assembled at app.py lines
409-427) is blocking external I/O; it is abstracted as a function of the
inbound text and the booking context, the inputs that vary between calls. -/
def LlmFn : Type := String → BookingContext → String

/-- `session["pending_confirm"]` (app.py lines 254-259). -/
structure PendingConfirm where
  prop : String
  start : String
  endd : String
  reservation_id : Option String
deriving Repr, DecidableEq

/-- The per-caller session fields read or written by `build_answer`
(`history` is managed by `handle_incoming_message` and the cached
`booking_ctx` is modelled with the resolution layer below). -/
structure Session where
  pending_confirm : Option PendingConfirm
  reservation_confirmed : Bool
deriving Repr, DecidableEq

/-- Result of `build_answer`: the reply, the mutated session, and whether
`/reset` popped the whole session from the store. -/
structure BAOut where
  reply : String
  session : Session
  resetStore : Bool
deriving Repr, DecidableEq

def askStructureMsg : String :=
  "Per aiutarti, mi dici in quale struttura ti trovi? (Relais dell’Ussero, Casa Monic, Belle Vue, Villino di Monic, Casa di Gina)"

/-- The verification-request reply for a blocked explicit access request
(app.py lines 327-333). -/
def VERIF_MSG : String :=
  "Per motivi di sicurezza posso inviarti i link solo dopo la verifica dei documenti. Hai già inviato tutto? Se no, per favore mandaci:\n• Indirizzo di residenza\n• Foto dei documenti di identità (di tutti gli ospiti; in alternativa solo capogruppo + dati degli altri: nome, cognome, data di nascita, sesso, nazionalità)\nAppena completato, potrò inviarti il video e le istruzioni di accesso."

def confirmLineMsg : String :=
  "Confermi? (sì/no) In caso affermativo, Niccolò ti contatterà a breve."

/-- `text.strip().lower() == "/reset"` (app.py line 240). -/
def isResetText (text : String) : Bool :=
  strLower (strTrim text) = "/reset"

/-- `_lookup.get("rid_tried") and not _lookup.get("rid_found")` (line 307). -/
def ridNotFoundB (ctx : BookingContext) : Bool :=
  isTruthy ctx.rid_tried && !ctx.rid_found

/-- Destination mapping of the transfer branch (app.py lines 377-383). -/
def transferDstMap : List (String × String) :=
  [("casa monic", "Casa Monic"),
   ("relais dell’ussero", "Relais dell’Ussero"),
   ("belle vue", "Belle Vue"),
   ("casa di gina", "Casa di Gina"),
   ("villino di monic", "Villino di Monic")]

/-- Tariff selection of the transfer branch (app.py lines 386-390):
airport tariff only when both `src` and `dst` are truthy and `src`
contains `"aeroporto"`; city tariff when at least one side is truthy. -/
def transfer_tariffa (src dst : Option String) : Option Nat :=
  if (isTruthy src && isTruthy dst) && strIn "aeroporto" (src.getD "") then
    some tariffa_aeroporto_citta
  else if isTruthy src || isTruthy dst then
    some tariffa_citta_citta
  else none

/-- The transfer branch (app.py lines 359-400), given the lowered text `t`,
the original text, and the property resolved earlier. -/
def transfer_branch (text : String) (prop : Option String) : String :=
  let t := strLower text
  let people : Option String :=
    match scanSiamoIn none t.data with
    | some x => some x
    | none => scanPeople none t.data
  let whenS : Option String := (scanTime none text.data).map fun g => g.1 ++ ":" ++ g.2
  let src : Option String := if strIn "aeroporto" t then some "aeroporto" else none
  let dst : Option String :=
    prop.map fun p => (lookupStr transferDstMap (normalize_property_key p)).getD p
  let tariffa := transfer_tariffa src dst
  let parts :=
    ["Perfetto, ho raccolto questi dati:",
     "• Persone: " ++ orDash people,
     "• Orario: " ++ orDash whenS,
     "• Partenza: " ++ orDash src,
     "• Destinazione: " ++ orDash dst]
    ++ (match tariffa with
        | some n => if n = 0 then [] else ["\nTariffa: " ++ toString n ++ "€."]
        | none => [])
    ++ [confirmLineMsg]
  joinLines parts

/-- Steps 1-5 of `build_answer` (app.py lines 300-429): property
resolution, the unknown-reservation-id reply, the video/power branch, the
automatic disclosure branch, transfer, parking, and the LLM fallback. -/
def ba_main (llm : LlmFn) (today : Nat) (text : String) (ctx : BookingContext)
    (s : Session) : BAOut :=
  -- `prop = prop_from_ctx or prop_from_text`; every later use of `prop` in the
  -- source is guarded by its truthiness, so the empty string is normalised to
  -- `none` here once and for all.
  let prop := truthyStr (orElseStr (property_name_from_ctx ctx) (extract_property_from_text text))
  if ridNotFoundB ctx then
    { reply := "Non trovo la prenotazione " ++ ctx.rid_tried.getD "" ++
        ". Per aiutarti subito, mi indichi il nome della struttura? (Relais dell’Ussero, Casa Monic, Belle Vue, Villino di Monic, Casa di Gina)",
      session := s, resetStore := false }
  else if wants_video text || wants_power text then
    match prop with
    | none =>
      match s.pending_confirm with
      | some pc =>
        { reply := "Confermi *" ++ pc.prop ++ "* dal *" ++ pc.start ++ "* al *" ++
            pc.endd ++ "*? Se sì, posso inviarti i link utili.",
          session := s, resetStore := false }
      | none => { reply := askStructureMsg, session := s, resetStore := false }
    | some p =>
      if explicit_access_request_blocked ctx then
        { reply := VERIF_MSG, session := s, resetStore := false }
      else if wants_power text then
        match kb_power_video_for_property p with
        | some plink =>
          { reply := "Ripristino corrente — " ++ p ++ ": " ++ plink,
            session := s, resetStore := false }
        | none =>
          { reply := "Per il ripristino corrente: verifica il quadro interno; se non torna, controlla il generale all’ingresso (cassetta contatori).",
            session := s, resetStore := false }
      else
        match kb_video_for_property p with
        | some vlink =>
          { reply := "Video check‑in — " ++ p ++ ": " ++ vlink,
            session := s, resetStore := false }
        | none =>
          { reply := "Sto cercando il video giusto per la tua struttura. Puoi confermare esattamente il nome dell’alloggio?",
            session := s, resetStore := false }
  else if should_offer_checkin_assets_auto today ctx && prop.isSome then
    let p := prop.getD ""
    let parts :=
      ["Benvenuto!"]
      ++ (match kb_video_for_property p with
          | some v => ["Video check‑in per " ++ p ++ ": " ++ v]
          | none => [])
      ++ (match kb_power_video_for_property p with
          | some x => ["Ripristino corrente: " ++ x]
          | none => [])
    { reply := joinLines parts, session := s, resetStore := false }
  else if wants_transfer text then
    { reply := transfer_branch text prop, session := s, resetStore := false }
  else if wants_parking text then
    match prop with
    | none =>
      { reply := "In quale struttura soggiorni? (Relais dell’Ussero, Casa Monic, Belle Vue, Villino di Monic, Casa di Gina)",
        session := s, resetStore := false }
    | some p =>
      { reply := "Parcheggio — " ++ p ++
          ": dimmi se hai esigenze particolari (orari/ingresso) e ti indico la soluzione migliore.",
        session := s, resetStore := false }
  else
    { reply := llm text ctx, session := s, resetStore := false }

/-- The pending-confirmation handling (app.py lines 266-298); on any reply
that is neither yes nor no the code falls through to the main branches. -/
def ba_afterGreeting (llm : LlmFn) (today : Nat) (text : String)
    (ctx : BookingContext) (s : Session) : BAOut :=
  match s.pending_confirm with
  | some pc =>
    if is_yes text then
      let chk := ctxChk ctx
      let parts :=
        ["Perfetto! Prenotazione confermata per *" ++ pc.prop ++ "*."]
        ++ (if chk = "COMPLETED" || chk = "VERIFIED" then
              (match kb_video_for_property pc.prop with
               | some v => ["Video check‑in: " ++ v]
               | none => [])
              ++ (match kb_power_video_for_property pc.prop with
                  | some p => ["Ripristino corrente: " ++ p]
                  | none => [])
              ++ ["Se ti serve *Parcheggio* o *Transfer*, dimmelo pure."]
            else
              ["Per motivi di sicurezza posso inviare i link di accesso dopo la verifica documenti.\nHai già inviato:\n• Indirizzo di residenza\n• Foto documenti per tutti gli ospiti (oppure solo capogruppo + dati degli altri)?"])
      { reply := joinLines parts,
        session := { s with pending_confirm := none, reservation_confirmed := true },
        resetStore := false }
    else if is_no text then
      { reply := "Nessun problema. " ++ askStructureMsg,
        session := { s with pending_confirm := none, reservation_confirmed := false },
        resetStore := false }
    else ba_main llm today text ctx s
  | none => ba_main llm today text ctx s

/-- `build_answer` (app.py lines 238-429).  `today` is `date.today()`. -/
def build_answer (llm : LlmFn) (today : Nat) (text : String)
    (ctx : BookingContext) (s : Session) : BAOut :=
  if isResetText text then
    { reply := "✅ Conversazione resettata. Come posso aiutarti? (Taxi/Transfer, Parcheggio o Video/Accesso)",
      session := s, resetStore := true }
  else
    let client_name := clientNameOf ctx
    if isGreetingText text && client_name ≠ "" then
      match ctx.reservation, truthyStr (property_name_from_ctx ctx) with
      | some res, some prop =>
        let start := strTake (res.start_date.getD "") 10
        let endd := strTake (res.end_date.getD "") 10
        { reply := "Ciao " ++ firstWord client_name ++
            "! Confermi che la tua prenotazione è presso *" ++ prop ++ "* dal *" ++
            start ++ "* al *" ++ endd ++ "*?",
          session := { s with
            pending_confirm := some ⟨prop, start, endd, res.id⟩,
            reservation_confirmed := false },
          resetStore := false }
      | _, _ =>
        { reply := "Ciao " ++ firstWord client_name ++
            "! Come posso aiutarti oggi? Se hai bisogno di informazioni su transfer, parcheggio o accesso, fammi sapere!",
          session := s, resetStore := false }
    else ba_afterGreeting llm today text ctx s

/-! ## Service layer: enum normalisation (ciao_booking_client.py 246-271) -/

/-- A JSON enum field as it arrives from the booking service: a string, a
numeric code, or absent/null. -/
inductive EnumVal where
  | vstr (s : String)
  | vnum (n : Int)
  | vnone
deriving Repr, DecidableEq

def statusMap : List (Int × String) := [(1, "CANCELED"), (2, "CONFIRMED"), (3, "PENDING")]

def guestMap : List (Int × String) := [(0, "NOT_ARRIVED"), (1, "ARRIVED"), (2, "LEFT")]

def checkinMap : List (Int × String) := [(0, "TO_DO"), (1, "COMPLETED"), (2, "VERIFIED")]

/-- `_map(v, m)` inside `_normalize_reservation`: strings pass through;
`m.get(v, v)` keeps the raw value when the code is not in the table. -/
def mapCode (v : EnumVal) (m : List (Int × String)) : EnumVal :=
  match v with
  | .vstr s => .vstr s
  | .vnum n =>
    match lookupInt m n with
    | some label => .vstr label
    | none => .vnum n
  | .vnone => .vnone

/-- A raw reservation payload row as the service returns it.  `property`
stands for the nested `row["property"]["name"]` and `client_id` for
`row["client"]["id"]`. -/
structure RawRes where
  id : Option String
  status : EnumVal
  guest_status : EnumVal
  is_checkin_completed : EnumVal
  start_date : Option String
  end_date : Option String
  property : Option String
  property_name : Option String
  client_id : Option String
deriving Repr, DecidableEq

/-- `_normalize_reservation` (ciao_booking_client.py lines 246-271). -/
def normalize_reservation (res : RawRes) : RawRes :=
  { res with
    status := mapCode res.status statusMap,
    guest_status := mapCode res.guest_status guestMap,
    is_checkin_completed := mapCode res.is_checkin_completed checkinMap,
    property_name :=
      match res.property_name with
      | some s => some s
      | none =>
        match res.property with
        | some name => if name = "" then none else some name
        | none => none }

/-! ## Service layer: `CiaoBookingClient.get_booking_context`
(ciao_booking_client.py lines 155-243) -/

/-- One booking-service call performed during context resolution. -/
inductive SvcOp where
  | directLookup (rid : String)
  | clientSearch (phone : String)
  | listReservations
deriving Repr, DecidableEq

/-- The service's responses, fixed for one resolution: the reservation
endpoint, the client-search collection for the caller's phone, and the rows
of the confirmed-reservations listing for the ±60-day window. -/
structure ServiceData where
  reservation_by_id : String → Option RawRes
  clients : List Client
  rows : List RawRes

/-- The `{"client": ..., "reservation": ...}` dict the client returns. -/
structure CbCtx where
  client : Option Client
  reservation : Option RawRes
deriving Repr, DecidableEq

/-- `CiaoBookingClient.get_booking_context`, instrumented with the trace of
service calls it performs.  Step 1: direct lookup when a reservation id was
supplied; step 2: client search by phone, first hit wins; step 3: only when
step 1 produced no reservation and a client was found, list the confirmed
reservations in the window and take the **first** row whose `client.id`
equals the candidate's id (the source breaks at the first match). -/
def cb_get_booking_context (svc : ServiceData) (phone rid : Option String) :
    CbCtx × List SvcOp :=
  let step1 : Option RawRes × List SvcOp :=
    match rid with
    | some r =>
      if r = "" then (none, [])
      else ((svc.reservation_by_id r).map normalize_reservation, [SvcOp.directLookup r])
    | none => (none, [])
  let step2 : Option Client × List SvcOp :=
    match phone with
    | some p =>
      if p = "" then (none, []) else (svc.clients.head?, [SvcOp.clientSearch p])
    | none => (none, [])
  match step1.1 with
  | some r => ({ client := step2.1, reservation := some r }, step1.2 ++ step2.2)
  | none =>
    match step2.1 with
    | none => ({ client := none, reservation := none }, step1.2 ++ step2.2)
    | some c =>
      let picked := svc.rows.find? fun row => row.client_id == c.id
      ({ client := some c, reservation := picked.map normalize_reservation },
       step1.2 ++ step2.2 ++ [SvcOp.listReservations])

/-! ## Spec-modelled reservation ranking

The specification prescribes a selection ordering for step 3 ("in-stay
before future before past, confirmed before pending, ties by smallest
absolute day-distance from today").  No such ordering exists in the source;
the following definitions follow the spec's words and serve only as the
comparison side of the refinement claim C3. -/

/-- Modelled from the spec: the stay bucket of a reservation relative to
today (0 = currently in-stay, `start ≤ today ≤ end`; 1 = future; 2 = past
or undated). -/
def spec_bucket (today : Nat) (r : RawRes) : Nat :=
  match parse_ymd r.start_date, parse_ymd r.end_date with
  | some s, some e => if s ≤ today ∧ today ≤ e then 0 else if today < s then 1 else 2
  | some s, none => if today < s then 1 else 2
  | none, _ => 2

/-- Modelled from the spec: confirmed ranks before pending within a bucket. -/
def spec_status_rank (r : RawRes) : Nat :=
  if r.status = .vstr "CONFIRMED" ∨ r.status = .vnum 2 then 0 else 1

/-- Modelled from the spec: absolute distance between the start date and
today (on the `Nat` date encoding; undated rows rank last). -/
def spec_day_dist (today : Nat) (r : RawRes) : Nat :=
  match parse_ymd r.start_date with
  | some s => max s today - min s today
  | none => 999999999

/-- Modelled from the spec: the selection key, compared lexicographically
(smaller is better). -/
def spec_key (today : Nat) (r : RawRes) : Nat × Nat × Nat :=
  (spec_bucket today r, spec_status_rank r, spec_day_dist today r)

def keyLt (a b : Nat × Nat × Nat) : Bool :=
  a.1 < b.1 || (a.1 = b.1 && (a.2.1 < b.2.1 || (a.2.1 = b.2.1 && a.2.2 < b.2.2)))

/-- Modelled from the spec: the single best match among the candidate's
reservations under the spec's ordering (first row wins remaining ties). -/
def spec_pick_best (today : Nat) (cid : Option String) (rows : List RawRes) :
    Option RawRes :=
  (rows.filter fun row => row.client_id == cid).foldl
    (fun acc r =>
      match acc with
      | none => some r
      | some b => if keyLt (spec_key today r) (spec_key today b) then some r else acc)
    none

/-! ## App layer: reservation-id extraction and `get_booking_context`
(app.py lines 216-235) -/

/-- `RES_ID_RE = re.compile(r"\b(\d{7,12})\b")` with `re.search`: the
leftmost maximal digit run that is delimited by word boundaries and has
length 7 to 12.  (`utils.extract_reservation_id` uses `\b(\d{6,})\b` but is
never imported by `app.py`.) -/
def scanResId (prev : Option Char) : List Char → Option String
  | [] => none
  | c :: rest =>
    (if c.isDigit && prevNonWord prev then
       let run := c :: rest.takeWhile Char.isDigit
       let after := rest.dropWhile Char.isDigit
       if 7 ≤ run.length && run.length ≤ 12 && boundaryAfter after then
         some (String.mk run)
       else none
     else none).orElse fun _ => scanResId (some c) rest

/-- The context dict assembled by `app.get_booking_context`, with raw-layer
reservations. -/
structure AppCtx where
  client : Option Client
  reservation : Option RawRes
  rid_tried : Option String
  rid_found : Bool
deriving Repr, DecidableEq

/-- `app.get_booking_context` (app.py lines 218-235): extract a reservation
reference from the text, delegate to the CiaoBooking client, and record the
`_lookup` bookkeeping. -/
def app_get_booking_context (svc : ServiceData) (phone text : String) :
    AppCtx × List SvcOp :=
  let rid : Option String := scanResId none text.data
  let cbr := cb_get_booking_context svc (truthyStr (some phone)) (truthyStr rid)
  ({ client := cbr.1.client, reservation := cbr.1.reservation,
     rid_tried := rid,
     rid_found := match rid with | some _ => cbr.1.reservation.isSome | none => false },
   cbr.2)

/-- The resolution part of `handle_incoming_message` (app.py lines 431-441):
the cached `session["booking_ctx"]` is *not consulted* — the handler calls
`get_booking_context` unconditionally on every inbound message and
overwrites the cache (`session["booking_ctx"]` is written at line 441 and
never read anywhere in `app.py`). -/
def handle_resolution (svc : ServiceData) (phone text : String)
    (cached : Option AppCtx) : AppCtx × List SvcOp :=
  match cached with
  | _ => app_get_booking_context svc phone text

/-! ## Token lifecycle: `CiaoBookingClient._request`
(ciao_booking_client.py lines 79-105) -/

/-- The HTTP world seen by one `_request` call: `status k` is the status
code of the k-th send of this request (0 = first attempt, 1 = retry) and
`freshTok k` the token produced by the k-th login performed during the
call.  `_ensure_token`'s expiry test is abstracted by `cached`: `some t`
when a non-expired token `t` is in the cache, `none` otherwise. -/
structure HttpService where
  status : Nat → Nat
  freshTok : Nat → String

/-- One HTTP operation performed by `_request`. -/
inductive HttpOp where
  | login (k : Nat)
  | send (tok : String)
deriving Repr, DecidableEq

/-- `Response.raise_for_status`: any status ≥ 400 raises. -/
def raise_for_status (code : Nat) : Except Nat Nat :=
  if 400 ≤ code then Except.error code else Except.ok code

/-- `_request` (ciao_booking_client.py lines 79-105): ensure a token, send;
on a 401 re-login once and send once more; then `raise_for_status`.  The
result is the surfaced outcome together with the trace of HTTP operations. -/
def request_once_retry (svc : HttpService) (cached : Option String) :
    Except Nat Nat × List HttpOp :=
  let ensure : String × List HttpOp × Nat :=
    match cached with
    | some t => (t, [], 0)
    | none => (svc.freshTok 0, [HttpOp.login 0], 1)
  let tok0 := ensure.1
  let logins0 := ensure.2.2
  let r1 := svc.status 0
  if r1 = 401 then
    let tok1 := svc.freshTok logins0
    let r2 := svc.status 1
    (raise_for_status r2,
     ensure.2.1 ++ [HttpOp.send tok0, HttpOp.login logins0, HttpOp.send tok1])
  else
    (raise_for_status r1, ensure.2.1 ++ [HttpOp.send tok0])

def isSend : HttpOp → Bool
  | .send _ => true
  | .login _ => false

def isLogin : HttpOp → Bool
  | .send _ => false
  | .login _ => true

/-- Number of sends in a trace. -/
def countSends (ops : List HttpOp) : Nat := ops.countP isSend

/-- Number of logins in a trace. -/
def countLogins (ops : List HttpOp) : Nat := ops.countP isLogin

/-! ## Concrete instances used by the closed theorems -/

/-- A trivial LLM stand-in for closed evaluations. -/
def llmZero : LlmFn := fun _ _ => ""

/-- A fresh session, as `handle_incoming_message` bootstraps it. -/
def sessNone : Session := ⟨none, false⟩

/-- The empty booking context (no client, no reservation). -/
def ctxEmpty : BookingContext := ⟨none, none, none, false⟩

/-- A confirmed reservation whose check-in is still `TO_DO`. -/
def resTodo : Reservation :=
  ⟨some "7654321", some "CONFIRMED", some "NOT_ARRIVED", some "TO_DO",
   some "2025-06-10", some "2025-06-12", none, some "casa monic"⟩

def ctxTodo : BookingContext := ⟨none, some resTodo, none, false⟩

/-- A reservation whose check-in status is the unrecognised string `"5"` —
outside the `{TO_DO, COMPLETED, VERIFIED}` enumeration. -/
def resChk5 : Reservation :=
  ⟨some "7654321", some "CONFIRMED", some "NOT_ARRIVED", some "5",
   some "2025-06-10", some "2025-06-12", none, some "casa monic"⟩

def ctxChk5 : BookingContext := ⟨none, some resChk5, none, false⟩

/-- A pending reservation at a property whose name contains the airport
marker. -/
def resAero : Reservation :=
  ⟨some "7654321", some "PENDING", none, some "COMPLETED", none, none, none,
   some "hotel aeroporto"⟩

def ctxAero : BookingContext := ⟨none, some resAero, none, false⟩

/-- A confirmed, already-finished stay (service-layer row, numeric codes). -/
def rowPast : RawRes :=
  ⟨some "10", .vnum 2, .vnum 2, .vnum 2, some "2025-05-01", some "2025-05-03",
   none, some "Casa Monic", some "c1"⟩

/-- A confirmed stay that is in progress on 2025-06-10. -/
def rowStay : RawRes :=
  ⟨some "11", .vnum 2, .vnum 1, .vnum 1, some "2025-06-09", some "2025-06-12",
   none, some "Belle Vue", some "c1"⟩

/-- Service snapshot for the resolver theorems: one client, two confirmed
reservations in the window (the finished one listed first), and an empty
reservation-by-id endpoint. -/
def svcTwoRows : ServiceData :=
  ⟨fun _ => none, [⟨some "c1", some "Mario Rossi"⟩], [rowPast, rowStay]⟩

/-- A service-layer payload carrying unknown numeric enum codes. -/
def rowUnknownCodes : RawRes :=
  ⟨some "12", .vnum 9, .vnum 7, .vnum 5, some "2025-06-10", some "2025-06-12",
   some "Casa Monic", none, some "c1"⟩

/-- An HTTP world that answers 401 to every send. -/
def httpAlways401 : HttpService := ⟨fun _ => 401, fun k => "tok" ++ toString k⟩

/-! # Theorems

Helper lemmas first, then one theorem (plus witness or counterexample) per
claim of the specification review. -/

theorem lookupStr_mem {l : List (String × String)} {k v : String}
    (h : lookupStr l k = some v) : v ∈ l.map Prod.snd := by
  induction l with
  | nil => simp [lookupStr] at h
  | cons p rest ih =>
    rw [lookupStr] at h
    by_cases hk : p.1 = k
    · rw [if_pos hk] at h
      simp [← Option.some_inj.mp h]
    · rw [if_neg hk] at h
      simp [ih h]

/-- Every link `kb_video_for_property` can return is one of the four
non-empty video URLs of the knowledge base. -/
theorem kb_video_for_property_mem {p v : String}
    (h : kb_video_for_property p = some v) :
    v ∈ ["https://youtube.com/shorts/XnBcl2T-ewM?feature=share",
         "https://youtube.com/shorts/YHX-7uT3itQ?feature=share",
         "https://youtube.com/shorts/1iqknGhIFEc?feature=share",
         "https://youtube.com/shorts/Wi-mevoKB3w?feature=share"] := by
  unfold kb_video_for_property at h
  cases hl : lookupStr KB_videos (normalize_property_key p) with
  | none => rw [hl] at h; exact absurd h (by simp)
  | some w =>
    rw [hl] at h
    change (if w = "" then none else some w) = some v at h
    by_cases hw : w = ""
    · rw [if_pos hw] at h; exact absurd h (by simp)
    · rw [if_neg hw] at h
      have hm := lookupStr_mem hl
      have hv : w = v := Option.some_inj.mp h
      subst hv
      simp only [KB_videos, List.map, List.mem_cons, List.not_mem_nil, or_false] at hm
      rcases hm with h1 | h1 | h1 | h1 | h1 <;> simp_all

theorem listPrefix_self (l : List Char) : l.isPrefixOf l = true := by
  induction l with
  | nil => rfl
  | cons c rest ih => simp [List.isPrefixOf, ih]

theorem listIncl_append_self (pre n : List Char) :
    listIncl n (pre ++ n) = true := by
  induction pre with
  | nil =>
    cases n with
    | nil => rfl
    | cons c rest => simp [listIncl, listPrefix_self]
  | cons c rest ih => simp [listIncl, ih]

/-- `strIn v (a ++ v) = true`: a string contains its own suffix. -/
theorem strIn_append_right (a v : String) : strIn v (a ++ v) = true := by
  have : (a ++ v).data = a.data ++ v.data := by
    cases a; cases v; rfl
  rw [strIn, this]
  exact listIncl_append_self a.data v.data

/-- With no `/reset`, no personalised greeting and no pending confirmation,
`build_answer` reduces to its main branch cascade. -/
theorem build_answer_eq_main (llm : LlmFn) (today : Nat) (text : String)
    (ctx : BookingContext) (s : Session)
    (h1 : isResetText text = false)
    (h2 : (isGreetingText text && clientNameOf ctx ≠ "") = false)
    (h3 : s.pending_confirm = none) :
    build_answer llm today text ctx s = ba_main llm today text ctx s := by
  unfold build_answer ba_afterGreeting
  simp only [h1, h2, h3, Bool.false_eq_true, if_false]

/-- C1: `should_offer_checkin_assets_auto` is true only when a reservation
is present with status CONFIRMED, check-in status COMPLETED or VERIFIED
(after the code's uppercasing), a parseable start date, and today equal to
the start date or inside `[start_date, end_date)`; and it is false whenever
the check-in status is neither COMPLETED nor VERIFIED, for every
reservation shape. -/
theorem C1_auto_disclosure_characterisation :
    (∀ (today : Nat) (ctx : BookingContext),
       should_offer_checkin_assets_auto today ctx = true →
       ∃ res, ctx.reservation = some res ∧
         strUpperOr res.status = "CONFIRMED" ∧
         (strUpperOr res.is_checkin_completed = "COMPLETED" ∨
          strUpperOr res.is_checkin_completed = "VERIFIED") ∧
         ∃ dStart, parse_ymd res.start_date = some dStart ∧
           (today = dStart ∨
            (dStart ≤ today ∧
             ∃ dEnd, parse_ymd res.end_date = some dEnd ∧ today < dEnd))) ∧
    (∀ (today : Nat) (ctx : BookingContext) (res : Reservation),
       ctx.reservation = some res →
       strUpperOr res.is_checkin_completed ≠ "COMPLETED" →
       strUpperOr res.is_checkin_completed ≠ "VERIFIED" →
       should_offer_checkin_assets_auto today ctx = false) := by
  constructor
  · intro today ctx h
    cases hr : ctx.reservation with
    | none => simp only [should_offer_checkin_assets_auto, hr, Bool.false_eq_true] at h
    | some res =>
      simp only [should_offer_checkin_assets_auto, hr] at h
      refine ⟨res, rfl, ?_⟩
      by_cases hst : strUpperOr res.status ≠ "CONFIRMED"
      · rw [if_pos hst] at h; exact absurd h (by simp)
      · rw [if_neg hst] at h
        push_neg at hst
        by_cases hchk : strUpperOr res.is_checkin_completed = "COMPLETED" ∨
            strUpperOr res.is_checkin_completed = "VERIFIED"
        · rw [if_neg (not_not_intro hchk)] at h
          refine ⟨hst, hchk, ?_⟩
          cases hps : parse_ymd res.start_date with
          | none => simp only [hps, Bool.false_eq_true] at h
          | some dStart =>
            simp only [hps] at h
            refine ⟨dStart, rfl, ?_⟩
            by_cases heq : today = dStart
            · exact Or.inl heq
            · rw [if_neg heq] at h
              cases hpe : parse_ymd res.end_date with
              | none => simp only [hpe, Bool.false_eq_true] at h
              | some dEnd =>
                simp only [hpe] at h
                by_cases hin : dStart ≤ today ∧ today < dEnd
                · exact Or.inr ⟨hin.1, dEnd, rfl, hin.2⟩
                · rw [if_neg hin] at h; exact absurd h (by simp)
        · rw [if_pos hchk] at h; exact absurd h (by simp)
  · intro today ctx res hr h1 h2
    simp only [should_offer_checkin_assets_auto, hr]
    by_cases hst : strUpperOr res.status ≠ "CONFIRMED"
    · rw [if_pos hst]
    · rw [if_neg hst, if_pos]
      intro hor
      rcases hor with h | h
      · exact h1 h
      · exact h2 h

/-- Witness for C1 at a concrete context: a confirmed reservation whose
check-in is still `TO_DO` is never auto-disclosed, even mid-stay. -/
theorem C1_auto_disclosure_witness :
    should_offer_checkin_assets_auto 20250610 ctxTodo = false :=
  C1_auto_disclosure_characterisation.2 20250610 ctxTodo resTodo rfl
    (by decide) (by decide)

theorem strAppend_assoc (a b c : String) : a ++ b ++ c = a ++ (b ++ c) := by
  cases a; cases b; cases c
  exact congrArg String.mk (List.append_assoc _ _ _)

theorem truthyStr_eq_some {o : Option String} (h : isTruthy o = true) :
    ∃ s, o = some s ∧ s ≠ "" ∧ truthyStr o = some s := by
  cases o with
  | none => simp [isTruthy] at h
  | some s =>
    simp only [isTruthy, decide_eq_true_eq] at h
    exact ⟨s, rfl, h, by simp [truthyStr, h]⟩

/-- In the video/power branch with a known property and a blocked context,
`ba_main` replies with the verification request. -/
theorem ba_main_blocked_reply (llm : LlmFn) (today : Nat) (text : String)
    (ctx : BookingContext) (s : Session) (p : String)
    (h4 : ridNotFoundB ctx = false)
    (h5 : wants_video text = true)
    (hp : truthyStr (orElseStr (property_name_from_ctx ctx)
            (extract_property_from_text text)) = some p)
    (hb : explicit_access_request_blocked ctx = true) :
    (ba_main llm today text ctx s).reply = VERIF_MSG := by
  unfold ba_main
  simp only [h4, h5, hp, hb, Bool.false_eq_true, if_false, Bool.true_or, if_true]

/-- In the video branch with a known property, an unblocked context and a
KB link, `ba_main` replies with the link. -/
theorem ba_main_video_reply (llm : LlmFn) (today : Nat) (text : String)
    (ctx : BookingContext) (s : Session) (p v : String)
    (h4 : ridNotFoundB ctx = false)
    (h5 : wants_video text = true)
    (h5b : wants_power text = false)
    (hp : truthyStr (orElseStr (property_name_from_ctx ctx)
            (extract_property_from_text text)) = some p)
    (hb : explicit_access_request_blocked ctx = false)
    (hv : kb_video_for_property p = some v) :
    (ba_main llm today text ctx s).reply = "Video check‑in — " ++ p ++ ": " ++ v := by
  unfold ba_main
  simp only [h4, h5, h5b, hp, hb, hv, Bool.false_eq_true, if_false, Bool.true_or,
    if_true]

/-- C2 counterexample: the claim covers "empty/unknown" check-in statuses,
but for the unknown status string `"5"` an explicit video request is
answered with the access link, not with the verification request. -/
theorem C2_unknown_checkin_counterexample :
    strUpperOr resChk5.is_checkin_completed = "5" ∧
    explicit_access_request_blocked ctxChk5 = false ∧
    wants_video "video" = true ∧
    (build_answer llmZero 20250610 "video" ctxChk5 sessNone).reply =
      "Video check‑in — casa monic: https://youtube.com/shorts/YHX-7uT3itQ?feature=share" ∧
    (build_answer llmZero 20250610 "video" ctxChk5 sessNone).reply ≠ VERIF_MSG ∧
    strIn "https://youtube.com/shorts/YHX-7uT3itQ?feature=share"
      (build_answer llmZero 20250610 "video" ctxChk5 sessNone).reply = true := by
  refine ⟨by decide, by decide, by decide, by decide, by decide, by decide⟩

/-- C2 (amended): when an explicit access/video request arrives and the
resolved reservation's check-in status is `TO_DO`, `"0"` or empty — the set
the code actually blocks — the handler replies with the verification
request (residence address + identity documents) and the reply contains no
check-in video link. -/
theorem C2_blocked_verification_reply
    (llm : LlmFn) (today : Nat) (text : String) (ctx : BookingContext)
    (s : Session) (res : Reservation)
    (h1 : isResetText text = false)
    (h2 : (isGreetingText text && clientNameOf ctx ≠ "") = false)
    (h3 : s.pending_confirm = none)
    (h4 : ridNotFoundB ctx = false)
    (h5 : wants_video text = true)
    (h6 : ctx.reservation = some res)
    (h7 : strUpperOr res.is_checkin_completed = "TO_DO" ∨
          strUpperOr res.is_checkin_completed = "0" ∨
          strUpperOr res.is_checkin_completed = "")
    (h8 : isTruthy (orElseStr (property_name_from_ctx ctx)
            (extract_property_from_text text)) = true) :
    (build_answer llm today text ctx s).reply = VERIF_MSG ∧
    ∀ p v, kb_video_for_property p = some v →
      strIn v (build_answer llm today text ctx s).reply = false := by
  have hb : explicit_access_request_blocked ctx = true := by
    simp only [explicit_access_request_blocked, h6]
    rcases h7 with h | h | h <;> simp [h]
  obtain ⟨p, -, -, hp⟩ := truthyStr_eq_some h8
  have hreply : (build_answer llm today text ctx s).reply = VERIF_MSG := by
    rw [build_answer_eq_main llm today text ctx s h1 h2 h3]
    exact ba_main_blocked_reply llm today text ctx s p h4 h5 hp hb
  refine ⟨hreply, ?_⟩
  intro q v hv
  rw [hreply]
  have hmem := kb_video_for_property_mem hv
  simp only [List.mem_cons, List.not_mem_nil, or_false] at hmem
  rcases hmem with h | h | h | h <;> subst h <;> decide

/-- Witness for C2 (amended) at a concrete input: a `TO_DO` reservation at
Casa Monic asking "video" gets the verification request. -/
theorem C2_blocked_verification_witness :
    (build_answer llmZero 20250610 "video" ctxTodo sessNone).reply = VERIF_MSG :=
  (C2_blocked_verification_reply llmZero 20250610 "video" ctxTodo sessNone resTodo
    (by decide) (by decide) rfl (by decide) (by decide) rfl (Or.inl (by decide))
    (by decide)).1

/-- C10: when no reservation was resolved, `explicit_access_request_blocked`
is false for every context, and an explicit video request that names a known
property is answered with the access video link — no verification step is
interposed. -/
theorem C10_no_reservation_never_blocked :
    (∀ ctx : BookingContext, ctx.reservation = none →
       explicit_access_request_blocked ctx = false) ∧
    (∀ (llm : LlmFn) (today : Nat) (text : String) (ctx : BookingContext)
       (s : Session) (p v : String),
       isResetText text = false →
       (isGreetingText text && clientNameOf ctx ≠ "") = false →
       s.pending_confirm = none →
       ridNotFoundB ctx = false →
       wants_video text = true →
       wants_power text = false →
       ctx.reservation = none →
       extract_property_from_text text = some p →
       p ≠ "" →
       kb_video_for_property p = some v →
       (build_answer llm today text ctx s).reply =
         "Video check‑in — " ++ p ++ ": " ++ v ∧
       strIn v (build_answer llm today text ctx s).reply = true) := by
  have hblock : ∀ ctx : BookingContext, ctx.reservation = none →
      explicit_access_request_blocked ctx = false := by
    intro ctx h
    simp [explicit_access_request_blocked, h]
  refine ⟨hblock, ?_⟩
  intro llm today text ctx s p v h1 h2 h3 h4 h5 h5b h6 h7 hpne hv
  have hprop : truthyStr (orElseStr (property_name_from_ctx ctx)
      (extract_property_from_text text)) = some p := by
    simp [property_name_from_ctx, h6, orElseStr, h7, truthyStr, hpne]
  have hreply : (build_answer llm today text ctx s).reply =
      "Video check‑in — " ++ p ++ ": " ++ v := by
    rw [build_answer_eq_main llm today text ctx s h1 h2 h3]
    exact ba_main_video_reply llm today text ctx s p v h4 h5 h5b hprop
      (hblock ctx h6) hv
  refine ⟨hreply, ?_⟩
  rw [hreply]
  have : "Video check‑in — " ++ p ++ ": " ++ v =
      ("Video check‑in — " ++ p ++ ": ") ++ v := by
    rw [strAppend_assoc ("Video check‑in — " ++ p) ": " v,
        strAppend_assoc "Video check‑in — " p (": " ++ v)]
  rw [this]
  exact strIn_append_right ("Video check‑in — " ++ p ++ ": ") v

/-- Witness for C10 at a concrete input: with no reservation, the bare text
"video casa monic" receives the Casa Monic access link. -/
theorem C10_no_reservation_never_blocked_witness :
    (build_answer llmZero 20250610 "video casa monic" ctxEmpty sessNone).reply =
      "Video check‑in — " ++ "casa monic" ++ ": " ++
        "https://youtube.com/shorts/YHX-7uT3itQ?feature=share" :=
  (C10_no_reservation_never_blocked.2 llmZero 20250610 "video casa monic"
    ctxEmpty sessNone "casa monic" "https://youtube.com/shorts/YHX-7uT3itQ?feature=share"
    (by decide) (by decide) rfl (by decide) (by decide) (by decide) rfl
    (by decide) (by decide) (by decide)).1

theorem joinLines_cons_of_ne (x : String) (l : List String) (h : l ≠ []) :
    joinLines (x :: l) = x ++ "\n" ++ joinLines l := by
  cases l with
  | nil => exact absurd rfl h
  | cons y rest => rfl

theorem joinLines_append_single (xs : List String) (y : String) (h : xs ≠ []) :
    joinLines (xs ++ [y]) = joinLines xs ++ "\n" ++ y := by
  induction xs with
  | nil => exact absurd rfl h
  | cons x rest ih =>
    cases rest with
    | nil => rfl
    | cons z rest2 =>
      rw [List.cons_append,
          joinLines_cons_of_ne x ((z :: rest2) ++ [y]) (by simp),
          ih (by simp),
          joinLines_cons_of_ne x (z :: rest2) (by simp)]
      simp [strAppend_assoc]

/-- Splitting the transfer summary around its fixed first and last lines. -/
theorem joinLines_shape (l1 l2 l3 l4 : String) (t : List String) :
    joinLines (["Perfetto, ho raccolto questi dati:", l1, l2, l3, l4] ++ t ++
        [confirmLineMsg]) =
      "Perfetto, ho raccolto questi dati:" ++ "\n" ++
        joinLines ([l1, l2, l3, l4] ++ t) ++ "\n" ++ confirmLineMsg := by
  have h1 : (["Perfetto, ho raccolto questi dati:", l1, l2, l3, l4] ++ t ++
      [confirmLineMsg]) =
      "Perfetto, ho raccolto questi dati:" ::
        (([l1, l2, l3, l4] ++ t) ++ [confirmLineMsg]) := by simp
  rw [h1, joinLines_cons_of_ne _ _ (by simp),
      joinLines_append_single ([l1, l2, l3, l4] ++ t) confirmLineMsg (by simp)]
  simp [strAppend_assoc]

/-- Every turn of the transfer branch produces the fixed summary-plus-confirm
shape, whatever was extracted. -/
theorem transfer_branch_shape (text : String) (prop : Option String) :
    ∃ mid, transfer_branch text prop =
      "Perfetto, ho raccolto questi dati:" ++ "\n" ++ mid ++ "\n" ++
        confirmLineMsg := by
  unfold transfer_branch
  exact ⟨_, joinLines_shape _ _ _ _ _⟩

/-- C5 counterexample: after a turn in which every required field is still
missing, the reply is not a question for the single next missing field —
it lists all four fields as missing simultaneously and asks for a yes/no
confirmation. -/
theorem C5_summary_counterexample :
    (build_answer llmZero 20250610 "transfer" ctxEmpty sessNone).reply =
      "Perfetto, ho raccolto questi dati:\n• Persone: —\n• Orario: —\n• Partenza: —\n• Destinazione: —\n" ++
        confirmLineMsg ∧
    strIn "• Persone: —" (build_answer llmZero 20250610 "transfer" ctxEmpty sessNone).reply = true ∧
    strIn "• Orario: —" (build_answer llmZero 20250610 "transfer" ctxEmpty sessNone).reply = true ∧
    strIn "• Partenza: —" (build_answer llmZero 20250610 "transfer" ctxEmpty sessNone).reply = true ∧
    strIn "• Destinazione: —" (build_answer llmZero 20250610 "transfer" ctxEmpty sessNone).reply = true ∧
    strIn "Confermi? (sì/no)" (build_answer llmZero 20250610 "transfer" ctxEmpty sessNone).reply = true := by
  refine ⟨by decide, by decide, by decide, by decide, by decide, by decide⟩

/-- C5 (amended): the transfer flow is single-turn — whenever the transfer
branch is reached, the reply is always the fixed summary ("Perfetto, ho
raccolto questi dati:" followed by the four field lines, missing ones shown
as "—") terminated by the yes/no confirmation line; it never asks for an
individual missing field. -/
theorem C5_single_turn_summary
    (llm : LlmFn) (today : Nat) (text : String) (ctx : BookingContext)
    (s : Session)
    (h1 : isResetText text = false)
    (h2 : (isGreetingText text && clientNameOf ctx ≠ "") = false)
    (h3 : s.pending_confirm = none)
    (h4 : ridNotFoundB ctx = false)
    (h5 : (wants_video text || wants_power text) = false)
    (h6 : (should_offer_checkin_assets_auto today ctx &&
           (truthyStr (orElseStr (property_name_from_ctx ctx)
             (extract_property_from_text text))).isSome) = false)
    (h7 : wants_transfer text = true) :
    ∃ mid, (build_answer llm today text ctx s).reply =
      "Perfetto, ho raccolto questi dati:" ++ "\n" ++ mid ++ "\n" ++
        confirmLineMsg := by
  rw [build_answer_eq_main llm today text ctx s h1 h2 h3]
  unfold ba_main
  simp only [h4, h5, h6, h7, Bool.false_eq_true, if_false, if_true]
  exact transfer_branch_shape text _

/-- Witness for C5 (amended): the bare text "transfer" yields the summary
shape. -/
theorem C5_single_turn_summary_witness :
    ∃ mid, (build_answer llmZero 20250610 "transfer" ctxEmpty sessNone).reply =
      "Perfetto, ho raccolto questi dati:" ++ "\n" ++ mid ++ "\n" ++
        confirmLineMsg :=
  C5_single_turn_summary llmZero 20250610 "transfer" ctxEmpty sessNone
    (by decide) (by decide) rfl (by decide) (by decide) (by decide) (by decide)

theorem strData_append (a b : String) : (a ++ b).data = a.data ++ b.data := by
  cases a; cases b; rfl

theorem listIncl_spec (n h : List Char) :
    listIncl n h = true ↔ n <:+: h := by
  induction h with
  | nil =>
    constructor
    · intro hh
      have : n = [] := by
        cases n with
        | nil => rfl
        | cons c rest => simp [listIncl, List.isEmpty] at hh
      simp [this]
    · intro hh
      have := List.eq_nil_of_infix_nil hh
      simp [this, listIncl, List.isEmpty]
  | cons c rest ih =>
    rw [listIncl, Bool.or_eq_true, List.isPrefixOf_iff_prefix, ih,
        List.infix_cons_iff]

theorem strIn_trans {a b c : String} (h1 : strIn a b = true)
    (h2 : strIn b c = true) : strIn a c = true := by
  rw [strIn, listIncl_spec] at h1 h2 ⊢
  exact h1.trans h2

/-- A line of the list occurs inside the joined text. -/
theorem strIn_joinLines {x : String} {l : List String} (h : x ∈ l) :
    strIn x (joinLines l) = true := by
  induction l with
  | nil => simp at h
  | cons y rest ih =>
    cases rest with
    | nil =>
      simp only [List.mem_singleton] at h
      subst h
      rw [strIn, listIncl_spec]
      exact List.infix_refl _
    | cons z rest2 =>
      rw [joinLines_cons_of_ne y (z :: rest2) (by simp)]
      rcases List.mem_cons.mp h with hx | hx
      · subst hx
        rw [strIn, listIncl_spec, strData_append, strData_append]
        exact List.IsPrefix.isInfix ((x.data.prefix_append _).trans (List.prefix_append _ _))
      · have := ih hx
        rw [strIn, listIncl_spec] at this ⊢
        rw [strData_append]
        exact this.trans (List.IsSuffix.isInfix (List.suffix_append _ _))

theorem transferDst_getD_ne_empty {p : String} (hp : p ≠ "") :
    ((lookupStr transferDstMap (normalize_property_key p)).getD p) ≠ "" := by
  cases hl : lookupStr transferDstMap (normalize_property_key p) with
  | none => simpa using hp
  | some w =>
    have hm := lookupStr_mem hl
    simp only [transferDstMap, List.map, List.mem_cons, List.not_mem_nil,
      or_false] at hm
    simp only [Option.getD_some]
    rcases hm with h | h | h | h | h <;> subst h <;> decide

theorem strIn_tariff_join (l1 l2 l3 l4 : String) (n : Nat) :
    strIn ("Tariffa: " ++ toString n ++ "€.")
      (joinLines (["Perfetto, ho raccolto questi dati:", l1, l2, l3, l4] ++
        ["\nTariffa: " ++ toString n ++ "€."] ++ [confirmLineMsg])) = true := by
  have hmem : ("\nTariffa: " ++ toString n ++ "€.") ∈
      (["Perfetto, ho raccolto questi dati:", l1, l2, l3, l4] ++
        ["\nTariffa: " ++ toString n ++ "€."] ++ [confirmLineMsg]) := by simp
  refine strIn_trans ?_ (strIn_joinLines hmem)
  have hlit : ("\nTariffa: " : String) = "\n" ++ "Tariffa: " := by decide
  have heq : ("\nTariffa: " ++ toString n ++ "€." : String) =
      "\n" ++ ("Tariffa: " ++ toString n ++ "€.") := by
    rw [strAppend_assoc "\nTariffa: " (toString n) "€."]
    conv_lhs => rw [hlit]
    rw [strAppend_assoc "\n" "Tariffa: " (toString n ++ "€."),
        strAppend_assoc "Tariffa: " (toString n) "€."]
  rw [heq]
  exact strIn_append_right "\n" _

/-- Whenever the transfer branch derives a non-zero tariff, the summary
contains the corresponding tariff line. -/
theorem transfer_branch_tariff_line (text : String) (prop : Option String)
    (n : Nat)
    (h : transfer_tariffa
           (if strIn "aeroporto" (strLower text) then some "aeroporto" else none)
           (prop.map fun p =>
             (lookupStr transferDstMap (normalize_property_key p)).getD p) =
         some n)
    (hn : n ≠ 0) :
    strIn ("Tariffa: " ++ toString n ++ "€.") (transfer_branch text prop) = true := by
  unfold transfer_branch
  simp only [h, hn, if_false]
  exact strIn_tariff_join _ _ _ _ n

/-- C6 counterexample: for a transfer request whose destination (the
property "hotel aeroporto" from the reservation) contains the airport
marker while the text does not, the derived price is the city tariff 40,
not the airport tariff 50. -/
theorem C6_destination_marker_counterexample :
    strIn "aeroporto" (strLower "hotel aeroporto") = true ∧
    strIn "aeroporto" (strLower "transfer") = false ∧
    (build_answer llmZero 20250610 "transfer" ctxAero sessNone).reply =
      "Perfetto, ho raccolto questi dati:\n• Persone: —\n• Orario: —\n• Partenza: —\n• Destinazione: hotel aeroporto\n\nTariffa: 40€.\n" ++
        confirmLineMsg ∧
    strIn "Tariffa: 40€."
      (build_answer llmZero 20250610 "transfer" ctxAero sessNone).reply = true ∧
    strIn "Tariffa: 50€."
      (build_answer llmZero 20250610 "transfer" ctxAero sessNone).reply = false := by
  refine ⟨by decide, by decide, by decide, by decide, by decide⟩

/-- C6 (amended): the tariff is keyed off the origin only — the airport
tariff is charged exactly when both origin and destination are collected
and the origin contains "aeroporto"; when at least one side is collected
otherwise (in particular when only the destination carries the airport
marker, or when the origin carries it but no destination is known), the
city tariff is charged; and every non-zero derived tariff appears as a
"Tariffa: n€." line in the reply of the transfer turn. -/
theorem C6_tariff_selection :
    (∀ dst : Option String, transfer_tariffa none dst =
       if isTruthy dst then some tariffa_citta_citta else none) ∧
    (∀ dst : Option String, isTruthy dst = true →
       transfer_tariffa (some "aeroporto") dst = some tariffa_aeroporto_citta) ∧
    transfer_tariffa (some "aeroporto") none = some tariffa_citta_citta ∧
    (∀ (llm : LlmFn) (today : Nat) (text : String) (ctx : BookingContext)
       (s : Session) (n : Nat),
       isResetText text = false →
       (isGreetingText text && clientNameOf ctx ≠ "") = false →
       s.pending_confirm = none →
       ridNotFoundB ctx = false →
       (wants_video text || wants_power text) = false →
       (should_offer_checkin_assets_auto today ctx &&
        (truthyStr (orElseStr (property_name_from_ctx ctx)
          (extract_property_from_text text))).isSome) = false →
       wants_transfer text = true →
       transfer_tariffa
         (if strIn "aeroporto" (strLower text) then some "aeroporto" else none)
         ((truthyStr (orElseStr (property_name_from_ctx ctx)
            (extract_property_from_text text))).map fun p =>
              (lookupStr transferDstMap (normalize_property_key p)).getD p) =
         some n →
       n ≠ 0 →
       strIn ("Tariffa: " ++ toString n ++ "€.")
         (build_answer llm today text ctx s).reply = true) := by
  refine ⟨?_, ?_, by decide, ?_⟩
  · intro dst
    cases dst with
    | none => decide
    | some d => simp [transfer_tariffa, isTruthy]
  · intro dst hdst
    cases dst with
    | none => simp [isTruthy] at hdst
    | some d =>
      simp only [isTruthy, decide_eq_true_eq] at hdst
      simp [transfer_tariffa, isTruthy, hdst]
      decide
  · intro llm today text ctx s n h1 h2 h3 h4 h5 h6 h7 htar hn
    rw [build_answer_eq_main llm today text ctx s h1 h2 h3]
    unfold ba_main
    simp only [h4, h5, h6, h7, Bool.false_eq_true, if_false, if_true]
    exact transfer_branch_tariff_line text _ n htar hn

/-- Witness for C6 (amended): "transfer aeroporto casa monic" charges the
airport tariff and the reply carries the 50€ line. -/
theorem C6_tariff_selection_witness :
    strIn ("Tariffa: " ++ toString 50 ++ "€.")
      (build_answer llmZero 20250610 "transfer aeroporto casa monic" ctxEmpty
        sessNone).reply = true :=
  C6_tariff_selection.2.2.2 llmZero 20250610 "transfer aeroporto casa monic"
    ctxEmpty sessNone 50 (by decide) (by decide) rfl (by decide) (by decide)
    (by decide) (by decide) (by decide) (by decide)

/-- C3 counterexample: with two confirmed reservations of the same client —
a finished stay listed first and a current stay listed second — the
resolver attaches the finished stay (the first row), while the spec's
ordering selects the in-stay reservation. -/
theorem C3_first_match_counterexample :
    (cb_get_booking_context svcTwoRows (some "39333") none).1.reservation =
      some (normalize_reservation rowPast) ∧
    spec_pick_best 20250610 (some "c1") svcTwoRows.rows = some rowStay ∧
    spec_bucket 20250610 rowPast = 2 ∧
    spec_bucket 20250610 rowStay = 0 ∧
    normalize_reservation rowPast ≠ normalize_reservation rowStay := by
  refine ⟨by decide, by decide, by decide, by decide, by decide⟩

/-- C3 (amended): whenever no reservation was resolved by direct reference
and a candidate client was found, the resolver attaches the **first** row
of the service's confirmed-reservations listing whose client id equals the
candidate's id (normalised), in service order — no in-stay/future/past or
confirmed/pending ranking and no day-distance tie-break is applied. -/
theorem C3_first_match_selection
    (svc : ServiceData) (p : String) (rid : Option String) (c : Client)
    (hpne : p ≠ "")
    (hdir : ∀ r, rid = some r → r ≠ "" → svc.reservation_by_id r = none)
    (hc : svc.clients.head? = some c) :
    (cb_get_booking_context svc (some p) rid).1.reservation =
      (svc.rows.find? fun row => row.client_id == c.id).map
        normalize_reservation := by
  have hstep1 : (match rid with
      | some r =>
        if r = "" then (none, ([] : List SvcOp))
        else ((svc.reservation_by_id r).map normalize_reservation,
              [SvcOp.directLookup r])
      | none => (none, ([] : List SvcOp))).1 = (none : Option RawRes) := by
    cases rid with
    | none => rfl
    | some r =>
      by_cases hr : r = ""
      · simp [hr]
      · simp [hr, hdir r rfl hr]
  unfold cb_get_booking_context
  simp only [hpne, hc, hstep1, if_false, if_neg]

/-- Witness for C3 (amended) on the two-row snapshot. -/
theorem C3_first_match_selection_witness :
    (cb_get_booking_context svcTwoRows (some "39333") none).1.reservation =
      (svcTwoRows.rows.find? fun row =>
        row.client_id == Client.id ⟨some "c1", some "Mario Rossi"⟩).map
        normalize_reservation :=
  C3_first_match_selection svcTwoRows "39333" none ⟨some "c1", some "Mario Rossi"⟩
    (by decide) (fun r hr _ => Option.noConfusion hr) rfl

/-- C4: on a 401 the client re-authenticates exactly once and retries
exactly once with the freshly obtained credential; a failing retry
(including another 401) is surfaced as an error; and no run of `_request`
ever performs more than two sends or more than one re-login after the
first send. -/
theorem C4_retry_exactly_once (svc : HttpService) (cached : Option String) :
    countSends (request_once_retry svc cached).2 ≤ 2 ∧
    countLogins (request_once_retry svc cached).2 ≤
      (match cached with | some _ => 1 | none => 2) ∧
    (svc.status 0 = 401 →
      (request_once_retry svc cached).2 =
        (match cached with
         | some t => [HttpOp.send t, HttpOp.login 0, HttpOp.send (svc.freshTok 0)]
         | none => [HttpOp.login 0, HttpOp.send (svc.freshTok 0), HttpOp.login 1,
                    HttpOp.send (svc.freshTok 1)]) ∧
      (400 ≤ svc.status 1 →
        (request_once_retry svc cached).1 = Except.error (svc.status 1)) ∧
      (svc.status 1 < 400 →
        (request_once_retry svc cached).1 = Except.ok (svc.status 1))) ∧
    (svc.status 0 ≠ 401 →
      countSends (request_once_retry svc cached).2 = 1 ∧
      countLogins (request_once_retry svc cached).2 =
        (match cached with | some _ => 0 | none => 1)) := by
  cases cached with
  | some t =>
    by_cases h401 : svc.status 0 = 401
    · refine ⟨?_, ?_, ?_, ?_⟩
      · simp [request_once_retry, h401, countSends, isSend]
      · simp [request_once_retry, h401, countLogins, isLogin]
      · intro _
        refine ⟨by simp [request_once_retry, h401], ?_, ?_⟩
        · intro hfail
          simp [request_once_retry, h401, raise_for_status, hfail]
        · intro hok
          simp [request_once_retry, h401, raise_for_status, Nat.not_le.mpr hok]
      · intro hne; exact absurd h401 hne
    · refine ⟨?_, ?_, fun h => absurd h h401, ?_⟩
      · simp [request_once_retry, h401, countSends, isSend]
      · simp [request_once_retry, h401, countLogins, isLogin]
      · intro _
        constructor
        · simp [request_once_retry, h401, countSends, isSend]
        · simp [request_once_retry, h401, countLogins, isLogin]
  | none =>
    by_cases h401 : svc.status 0 = 401
    · refine ⟨?_, ?_, ?_, ?_⟩
      · simp [request_once_retry, h401, countSends, isSend]
      · simp [request_once_retry, h401, countLogins, isLogin]
      · intro _
        refine ⟨by simp [request_once_retry, h401], ?_, ?_⟩
        · intro hfail
          simp [request_once_retry, h401, raise_for_status, hfail]
        · intro hok
          simp [request_once_retry, h401, raise_for_status, Nat.not_le.mpr hok]
      · intro hne; exact absurd h401 hne
    · refine ⟨?_, ?_, fun h => absurd h h401, ?_⟩
      · simp [request_once_retry, h401, countSends, isSend]
      · simp [request_once_retry, h401, countLogins, isLogin]
      · intro _
        constructor
        · simp [request_once_retry, h401, countSends, isSend]
        · simp [request_once_retry, h401, countLogins, isLogin]

/-- Witness for C4: a service that answers 401 to every send, with an empty
cache, produces exactly login-send-login-send and surfaces the 401. -/
theorem C4_retry_exactly_once_witness :
    (request_once_retry httpAlways401 none).2 =
      [HttpOp.login 0, HttpOp.send (httpAlways401.freshTok 0), HttpOp.login 1,
       HttpOp.send (httpAlways401.freshTok 1)] ∧
    (request_once_retry httpAlways401 none).1 = Except.error 401 := by
  have h := C4_retry_exactly_once httpAlways401 none
  exact ⟨(h.2.2.1 rfl).1, (h.2.2.1 rfl).2.1 (by decide)⟩

theorem cb_clientSearch_mem (svc : ServiceData) (p : String)
    (rid : Option String) (hp : p ≠ "") :
    SvcOp.clientSearch p ∈ (cb_get_booking_context svc (some p) rid).2 := by
  unfold cb_get_booking_context
  simp only [hp, if_false]
  generalize (match rid with
    | some r =>
      if r = "" then ((none : Option RawRes), ([] : List SvcOp))
      else ((svc.reservation_by_id r).map normalize_reservation,
            [SvcOp.directLookup r])
    | none => ((none : Option RawRes), ([] : List SvcOp))) = st1
  obtain ⟨r1, tr1⟩ := st1
  cases r1 with
  | some rr => simp
  | none =>
    cases hcl : svc.clients.head? with
    | none => simp
    | some c => simp

/-- With no reservation reference, no direct-lookup call appears in the
resolution trace, whatever the phone and the service data. -/
theorem cb_no_directLookup (svc : ServiceData) (phone : Option String)
    (r : String) :
    SvcOp.directLookup r ∉ (cb_get_booking_context svc phone none).2 := by
  rcases phone with _ | p
  · simp [cb_get_booking_context]
  · by_cases hp : p = ""
    · simp [cb_get_booking_context, hp]
    · cases hcl : svc.clients.head? with
      | none => simp [cb_get_booking_context, hp, hcl]
      | some c => simp [cb_get_booking_context, hp, hcl]

/-- With a non-empty reservation reference, the direct-lookup call is the
first step of the resolution trace. -/
theorem cb_directLookup_of_rid (svc : ServiceData) (phone : Option String)
    (r : String) (hr : r ≠ "") :
    SvcOp.directLookup r ∈ (cb_get_booking_context svc phone (some r)).2 := by
  unfold cb_get_booking_context
  simp only [hr, if_false]
  cases hres : svc.reservation_by_id r with
  | some rr =>
    generalize (match phone with
      | some p =>
        if p = "" then ((none : Option Client), ([] : List SvcOp))
        else (svc.clients.head?, [SvcOp.clientSearch p])
      | none => ((none : Option Client), ([] : List SvcOp))) = st2
    simp
  | none =>
    generalize (match phone with
      | some p =>
        if p = "" then ((none : Option Client), ([] : List SvcOp))
        else (svc.clients.head?, [SvcOp.clientSearch p])
      | none => ((none : Option Client), ([] : List SvcOp))) = st2
    obtain ⟨cl, tr2⟩ := st2
    cases cl with
    | none => simp
    | some c => simp

/-- A reservation reference extracted by the pattern is never empty. -/
theorem scanResId_ne_empty (cs : List Char) : ∀ (prev : Option Char)
    (r : String), scanResId prev cs = some r → r ≠ "" := by
  induction cs with
  | nil => intro prev r h; simp [scanResId] at h
  | cons c rest ih =>
    intro prev r h
    rw [scanResId] at h
    by_cases hc : (c.isDigit && prevNonWord prev) = true
    · rw [if_pos hc] at h
      by_cases hlen : (7 ≤ (c :: rest.takeWhile Char.isDigit).length &&
          (c :: rest.takeWhile Char.isDigit).length ≤ 12 &&
          boundaryAfter (rest.dropWhile Char.isDigit)) = true
      · rw [if_pos hlen] at h
        simp only [Option.orElse] at h
        have : r = String.mk (c :: rest.takeWhile Char.isDigit) :=
          (Option.some_inj.mp h).symm
        subst this
        intro hcontra
        have : (String.mk (c :: rest.takeWhile Char.isDigit)).data = [] := by
          rw [hcontra]
        simp at this
      · rw [if_neg hlen] at h
        simp only [Option.orElse] at h
        exact ih (some c) r h
    · rw [if_neg hc] at h
      simp only [Option.orElse] at h
      exact ih (some c) r h

/-- C7 counterexample: a second message in the same session, containing no
reservation-reference token and arriving with the booking context already
cached from the first turn, still performs the full resolution (client
search and reservation listing) again. -/
theorem C7_reresolve_counterexample :
    (handle_resolution svcTwoRows "39333" "ciao" none).2 =
      [SvcOp.clientSearch "39333", SvcOp.listReservations] ∧
    scanResId none "grazie".data = none ∧
    (handle_resolution svcTwoRows "39333" "grazie"
       (some (handle_resolution svcTwoRows "39333" "ciao" none).1)).2 =
      [SvcOp.clientSearch "39333", SvcOp.listReservations] ∧
    (handle_resolution svcTwoRows "39333" "grazie"
       (some (handle_resolution svcTwoRows "39333" "ciao" none).1)).2 ≠ [] := by
  refine ⟨by decide, by decide, by decide, by decide⟩

/-- C7 (amended): `handle_incoming_message` resolves the booking context on
**every** inbound message — the cached `session["booking_ctx"]` is written
but never consulted, so the turn's outcome and its resolution trace are
independent of the cache, and the client search runs each turn (for every
non-empty caller id). -/
theorem C7_resolution_every_turn (svc : ServiceData) (phone text : String)
    (cached1 cached2 : Option AppCtx) :
    handle_resolution svc phone text cached1 =
      handle_resolution svc phone text cached2 ∧
    (phone ≠ "" →
      SvcOp.clientSearch phone ∈ (handle_resolution svc phone text cached1).2) := by
  refine ⟨rfl, ?_⟩
  intro hph
  unfold handle_resolution app_get_booking_context
  rw [show truthyStr (some phone) = some phone from by simp [truthyStr, hph]]
  exact cb_clientSearch_mem svc phone _ hph

/-- Witness for C7 (amended): the second-turn trace contains the client
search even though the context was cached. -/
theorem C7_resolution_every_turn_witness :
    SvcOp.clientSearch "39333" ∈
      (handle_resolution svcTwoRows "39333" "grazie"
        (some (handle_resolution svcTwoRows "39333" "ciao" none).1)).2 :=
  (C7_resolution_every_turn svcTwoRows "39333" "grazie"
    (some (handle_resolution svcTwoRows "39333" "ciao" none).1) none).2
    (by decide)

/-- C8 counterexample: `_normalize_reservation` does not map an unknown
numeric code to an "unknown" label — it leaves the raw integer in the
normalized reservation. -/
theorem C8_raw_code_counterexample :
    (normalize_reservation rowUnknownCodes).status = EnumVal.vnum 9 ∧
    (normalize_reservation rowUnknownCodes).guest_status = EnumVal.vnum 7 ∧
    (normalize_reservation rowUnknownCodes).is_checkin_completed =
      EnumVal.vnum 5 ∧
    (normalize_reservation rowUnknownCodes).status ≠ EnumVal.vstr "UNKNOWN" := by
  refine ⟨by decide, by decide, by decide, by decide⟩

/-- C8 (amended): normalization never fails (it is a total function);
string-valued codes pass through unchanged; the known numeric codes map to
their labels; but a numeric code outside the tables is kept as the raw
integer in the normalized reservation, for each of the three enum fields. -/
theorem C8_normalization_passthrough :
    (∀ (res : RawRes) (s : String), res.status = EnumVal.vstr s →
       (normalize_reservation res).status = EnumVal.vstr s) ∧
    (∀ res : RawRes, res.status = EnumVal.vnum 1 →
       (normalize_reservation res).status = EnumVal.vstr "CANCELED") ∧
    (∀ res : RawRes, res.status = EnumVal.vnum 2 →
       (normalize_reservation res).status = EnumVal.vstr "CONFIRMED") ∧
    (∀ res : RawRes, res.status = EnumVal.vnum 3 →
       (normalize_reservation res).status = EnumVal.vstr "PENDING") ∧
    (∀ (res : RawRes) (n : Int), res.status = EnumVal.vnum n →
       n ≠ 1 → n ≠ 2 → n ≠ 3 →
       (normalize_reservation res).status = EnumVal.vnum n) ∧
    (∀ (res : RawRes) (n : Int), res.guest_status = EnumVal.vnum n →
       n ≠ 0 → n ≠ 1 → n ≠ 2 →
       (normalize_reservation res).guest_status = EnumVal.vnum n) ∧
    (∀ (res : RawRes) (n : Int), res.is_checkin_completed = EnumVal.vnum n →
       n ≠ 0 → n ≠ 1 → n ≠ 2 →
       (normalize_reservation res).is_checkin_completed = EnumVal.vnum n) := by
  refine ⟨?_, ?_, ?_, ?_, ?_, ?_, ?_⟩
  · intro res s h; simp [normalize_reservation, h, mapCode]
  · intro res h; simp [normalize_reservation, h, mapCode, statusMap, lookupInt]
  · intro res h; simp [normalize_reservation, h, mapCode, statusMap, lookupInt]
  · intro res h; simp [normalize_reservation, h, mapCode, statusMap, lookupInt]
  · intro res n h h1 h2 h3
    simp [normalize_reservation, h, mapCode, statusMap, lookupInt,
      Ne.symm h1, Ne.symm h2, Ne.symm h3]
  · intro res n h h0 h1 h2
    simp [normalize_reservation, h, mapCode, guestMap, lookupInt,
      Ne.symm h0, Ne.symm h1, Ne.symm h2]
  · intro res n h h0 h1 h2
    simp [normalize_reservation, h, mapCode, checkinMap, lookupInt,
      Ne.symm h0, Ne.symm h1, Ne.symm h2]

/-- Witness for C8 (amended): code 9 stays the raw integer 9. -/
theorem C8_normalization_passthrough_witness :
    (normalize_reservation rowUnknownCodes).status = EnumVal.vnum 9 :=
  C8_normalization_passthrough.2.2.2.2.1 rowUnknownCodes 9 rfl
    (by decide) (by decide) (by decide)

/-- C9 counterexample: a six-digit run does **not** trigger a direct
reservation lookup — the live pattern (app.py line 216) requires 7 to 12
digits — while a seven-digit run does match. -/
theorem C9_six_digit_counterexample :
    strIn "123456" "Ho la prenotazione 123456" = true ∧
    scanResId none "Ho la prenotazione 123456".data = none ∧
    (app_get_booking_context svcTwoRows "39333" "Ho la prenotazione 123456").2 =
      [SvcOp.clientSearch "39333", SvcOp.listReservations] ∧
    scanResId none "Ho la prenotazione 1234567".data = some "1234567" := by
  refine ⟨by decide, by decide, by decide, by decide⟩

/-- C9 (amended): the reference recorded by the resolver is exactly the
leftmost word-bounded run of 7-12 digits found in the text; a direct
lookup for that identifier is performed whenever such a run exists, and no
direct lookup at all is performed when none exists. -/
theorem C9_direct_lookup_pattern (svc : ServiceData) (phone text : String) :
    (app_get_booking_context svc phone text).1.rid_tried =
      scanResId none text.data ∧
    (∀ r, scanResId none text.data = some r →
       SvcOp.directLookup r ∈ (app_get_booking_context svc phone text).2) ∧
    (scanResId none text.data = none →
       ∀ r, SvcOp.directLookup r ∉ (app_get_booking_context svc phone text).2) := by
  refine ⟨rfl, ?_, ?_⟩
  · intro r hr
    have hne := scanResId_ne_empty text.data none r hr
    unfold app_get_booking_context
    simp only [hr]
    rw [show truthyStr (some r) = some r from by simp [truthyStr, hne]]
    exact cb_directLookup_of_rid svc _ r hne
  · intro hnone r
    unfold app_get_booking_context
    simp only [hnone]
    exact cb_no_directLookup svc _ r

/-- Witness for C9 (amended): the leftmost 7-digit run is the one looked
up when two candidate runs occur. -/
theorem C9_direct_lookup_pattern_witness :
    SvcOp.directLookup "1234567" ∈
      (app_get_booking_context svcTwoRows "39333" "ids 1234567 e 7654321").2 :=
  (C9_direct_lookup_pattern svcTwoRows "39333" "ids 1234567 e 7654321").2.1
    "1234567" (by decide)
